import Mathlib

set_option maxRecDepth 100000

/-!
Verification of the provider-selection and caching subsystem of the
TradingAgents repository:

* `src/tradingagents/dataflows/search_provider_factory.py`
  (`MappingBasedProviderSelector`, `SearchProviderRegistry`,
  `SearchProviderFactoryImpl`, `create_search_provider_factory`)
* `src/tradingagents/agents/utils/embedding_provider_factory.py`
  (`EmbeddingProviderFactory`)

The Python code is shallowly embedded: configuration dictionaries are
association lists of strings, the MD5-keyed cache is modelled with a real
MD5 implementation (RFC 1321), Python exceptions become an explicit error
type, and Python object identity is modelled by threading an allocation
counter: every constructor call stamps the created instance with a fresh
`objId`.
-/

namespace TradingAgents

/-! ## Basic string machinery: Python `in` (substring containment) -/

/-- `listPre n h` is true when the list `n` is a prefix of `h`. -/
def listPre : List Char → List Char → Bool
  | [], _ => true
  | _ :: _, [] => false
  | a :: as, b :: bs => a == b && listPre as bs

/-- `subOf n h` is true when `n` occurs as a contiguous sublist of `h`. -/
def subOf (n : List Char) : List Char → Bool
  | [] => n.isEmpty
  | c :: rest => listPre n (c :: rest) || subOf n rest

/-- Python's `needle in hay` for strings: contiguous substring containment. -/
def strIn (needle hay : String) : Bool :=
  subOf needle.toList hay.toList

/-! ## Configuration dictionaries and Python errors

A configuration is a Python `dict` read through `config.get(k, default)`
or `config[k]`; only string-valued fields are consumed by this subsystem,
so entries are `String × String` pairs (insertion-ordered, unique keys in
Python; lookup takes the first occurrence).
-/

/-- A configuration mapping, as consumed by the factories. -/
def Config : Type := List (String × String)

/-- Python `config[k]` / `config.get(k)`: the value stored under `k`. -/
def Config.get? (c : Config) (k : String) : Option String :=
  match c with
  | [] => none
  | (a, v) :: rest => if a == k then some v else Config.get? rest k

/-- Python `config.get(k, d)`: the value under `k`, else the default `d`. -/
def Config.getD (c : Config) (k : String) (d : String) : String :=
  match Config.get? c k with
  | some v => v
  | none => d

/-- Python exceptions raised by this subsystem: `ValueError(msg)` from the
registry and `KeyError(key)` from `config[key]` on a missing key. -/
inductive PyErr : Type where
  | valueError (msg : String)
  | keyError (key : String)
deriving DecidableEq, Repr

/-! ## `json.dumps(..., sort_keys=True)` for string-valued dicts

`SearchProviderFactoryImpl.create_provider` serializes a two-field dict
with `json.dumps(cache_key_data, sort_keys=True)`. We embed the exact
serialization: keys sorted by code point, `", "` and `": "` separators,
and `ensure_ascii=True` escaping of string values.
-/

/-- Lowercase hex digit for a value below 16. -/
def hexDigitChar (n : Nat) : Char :=
  if n < 10 then Char.ofNat (48 + n) else Char.ofNat (87 + n)

/-- A JSON `\uXXXX` escape for a code unit `n < 65536`. -/
def uEscape (n : Nat) : List Char :=
  ['\\', 'u', hexDigitChar (n / 4096 % 16), hexDigitChar (n / 256 % 16),
   hexDigitChar (n / 16 % 16), hexDigitChar (n % 16)]

/-- How Python's `json.dumps` (default `ensure_ascii=True`) renders one
character inside a string literal: `"` and `\` get a backslash escape,
the control characters with short escapes use them, every other character
outside `0x20`-`0x7e` becomes `\uXXXX` (a surrogate pair beyond
`0xFFFF`). -/
def jsonEscapeChar (c : Char) : List Char :=
  let n := c.toNat
  if n = 34 then ['\\', '"']
  else if n = 92 then ['\\', '\\']
  else if n = 8 then ['\\', 'b']
  else if n = 9 then ['\\', 't']
  else if n = 10 then ['\\', 'n']
  else if n = 12 then ['\\', 'f']
  else if n = 13 then ['\\', 'r']
  else if n < 32 then uEscape n
  else if n < 127 then [c]
  else if n < 65536 then uEscape n
  else uEscape (55296 + (n - 65536) / 1024) ++ uEscape (56320 + (n - 65536) % 1024)

/-- The value of a lowercase hex digit character, inverse to
`hexDigitChar` on digits. -/
def hexVal (c : Char) : Nat :=
  if c.toNat ≤ 57 then c.toNat - 48 else c.toNat - 87

/-- The character encoded by a short JSON backslash escape. -/
def shortDecode (d : Char) : Char :=
  if d = '"' then '"'
  else if d = '\\' then '\\'
  else if d = 'b' then '\x08'
  else if d = 't' then '\x09'
  else if d = 'n' then '\x0a'
  else if d = 'f' then '\x0c'
  else '\x0d'

/-- One step of decoding the output of `jsonEscapeChar`: reads exactly
one escaped character off the front of the list and returns it with the
remainder. Used only to establish that `jsonEscapeChar` concatenations
are uniquely decodable (hence injective). -/
def decodeOne : List Char → Option (Char × List Char)
  | [] => none
  | a :: t =>
    if a = '\\' then
      match t with
      | [] => none
      | d :: t1 =>
        if d = 'u' then
          match t1 with
          | h3 :: h2 :: h1 :: h0 :: t2 =>
            let n := hexVal h3 * 4096 + hexVal h2 * 256 + hexVal h1 * 16 + hexVal h0
            if 55296 ≤ n ∧ n < 56320 then
              match t2 with
              | b1 :: b2 :: g3 :: g2 :: g1 :: g0 :: t3 =>
                if b1 = '\\' ∧ b2 = 'u' then
                  let m := hexVal g3 * 4096 + hexVal g2 * 256 + hexVal g1 * 16 +
                    hexVal g0
                  some (Char.ofNat (65536 + (n - 55296) * 1024 + (m - 56320)), t3)
                else none
              | _ => none
            else some (Char.ofNat n, t2)
          | _ => none
        else some (shortDecode d, t1)
    else some (a, t)

/-- A JSON string literal, as `json.dumps` renders the string `s`. -/
def jsonStr (s : String) : String :=
  "\"" ++ String.mk (s.toList.flatMap jsonEscapeChar) ++ "\""

/-- Code-point comparison of strings, as Python's `sorted` orders keys. -/
def charListLe : List Char → List Char → Bool
  | [], _ => true
  | _ :: _, [] => false
  | a :: as, b :: bs =>
    if a.toNat < b.toNat then true
    else if b.toNat < a.toNat then false
    else charListLe as bs

/-- `strLe a b`: `a` is at most `b` in code-point order. -/
def strLe (a b : String) : Bool := charListLe a.toList b.toList

/-- Insert a key-value pair into a key-sorted list. -/
def insertSortedKV (kv : String × String) :
    List (String × String) → List (String × String)
  | [] => [kv]
  | h :: t => if strLe kv.1 h.1 then kv :: h :: t else h :: insertSortedKV kv t

/-- Insertion sort of the entries by key, the order `sort_keys=True` uses. -/
def sortByKey : List (String × String) → List (String × String)
  | [] => []
  | h :: t => insertSortedKV h (sortByKey t)

/-- `json.dumps(d, sort_keys=True)` for a string-valued dict `d` given as
its entry list. -/
def jsonDumpsSorted (entries : List (String × String)) : String :=
  "\x7b" ++
    String.intercalate ", "
      ((sortByKey entries).map (fun kv => jsonStr kv.1 ++ ": " ++ jsonStr kv.2)) ++
  "\x7d"

/-! ## MD5 (RFC 1321), as `hashlib.md5(...).hexdigest()` computes it -/

/-- Addition modulo `2^32`. -/
def add32 (a b : Nat) : Nat := (a + b) % 4294967296

/-- Bitwise complement on 32 bits. -/
def not32 (a : Nat) : Nat := a ^^^ 4294967295

/-- Left rotation of a 32-bit word by `c` places. -/
def rotl32 (x c : Nat) : Nat := (x * 2 ^ c) % 4294967296 ||| x / 2 ^ (32 - c)

/-- The MD5 per-round left-rotation amounts. -/
def md5S : List Nat :=
  [7, 12, 17, 22, 7, 12, 17, 22, 7, 12, 17, 22, 7, 12, 17, 22,
   5, 9, 14, 20, 5, 9, 14, 20, 5, 9, 14, 20, 5, 9, 14, 20,
   4, 11, 16, 23, 4, 11, 16, 23, 4, 11, 16, 23, 4, 11, 16, 23,
   6, 10, 15, 21, 6, 10, 15, 21, 6, 10, 15, 21, 6, 10, 15, 21]

/-- The MD5 sine-derived constants `K[i] = floor(2^32 * abs(sin(i + 1)))`. -/
def md5K : List Nat :=
  [3614090360, 3905402710, 606105819, 3250441966,
   4118548399, 1200080426, 2821735955, 4249261313,
   1770035416, 2336552879, 4294925233, 2304563134,
   1804603682, 4254626195, 2792965006, 1236535329,
   4129170786, 3225465664, 643717713, 3921069994,
   3593408605, 38016083, 3634488961, 3889429448,
   568446438, 3275163606, 4107603335, 1163531501,
   2850285829, 4243563512, 1735328473, 2368359562,
   4294588738, 2272392833, 1839030562, 4259657740,
   2763975236, 1272893353, 4139469664, 3200236656,
   681279174, 3936430074, 3572445317, 76029189,
   3654602809, 3873151461, 530742520, 3299628645,
   4096336452, 1126891415, 2878612391, 4237533241,
   1700485571, 2399980690, 4293915773, 2240044497,
   1873313359, 4264355552, 2734768916, 1309151649,
   4149444226, 3174756917, 718787259, 3951481745]

/-- One MD5 round `i` (0-63) on state `(a, b, c, d)` with message words `M`. -/
def md5Round (M : List Nat) (i : Nat) (st : Nat × Nat × Nat × Nat) :
    Nat × Nat × Nat × Nat :=
  let a := st.1
  let b := st.2.1
  let c := st.2.2.1
  let d := st.2.2.2
  let fg : Nat × Nat :=
    if i < 16 then ((b &&& c) ||| (not32 b &&& d), i)
    else if i < 32 then ((d &&& b) ||| (not32 d &&& c), (5 * i + 1) % 16)
    else if i < 48 then (b ^^^ c ^^^ d, (3 * i + 5) % 16)
    else (c ^^^ (b ||| not32 d), 7 * i % 16)
  let tmp := add32 (add32 (add32 a fg.1) (md5K.getD i 0)) (M.getD fg.2 0)
  (d, add32 b (rotl32 tmp (md5S.getD i 0)), b, c)

/-- Process one 64-byte chunk, already split into 16 words `M`. -/
def md5Chunk (st : Nat × Nat × Nat × Nat) (M : List Nat) :
    Nat × Nat × Nat × Nat :=
  let r := (List.range 64).foldl (fun s i => md5Round M i s) st
  (add32 st.1 r.1, add32 st.2.1 r.2.1,
   add32 st.2.2.1 r.2.2.1, add32 st.2.2.2 r.2.2.2)

/-- A little-endian word from (up to) four bytes. -/
def leWord (bs : List Nat) : Nat := bs.foldr (fun b acc => b + 256 * acc) 0

/-- Split a 64-byte chunk into its 16 little-endian words. -/
def chunkWords (bs : List Nat) : List Nat :=
  (List.range 16).map (fun j => leWord ((bs.drop (4 * j)).take 4))

/-- Split a byte list into 64-byte chunks (`k` of them). -/
def toChunksN : Nat → List Nat → List (List Nat)
  | 0, _ => []
  | k + 1, bs => bs.take 64 :: toChunksN k (bs.drop 64)

/-- The eight little-endian length bytes appended by MD5 padding. -/
def le8 (n : Nat) : List Nat := (List.range 8).map (fun i => n / 256 ^ i % 256)

/-- MD5 padding: a `0x80` byte, zeros to 56 mod 64, then the bit length. -/
def md5Pad (msg : List Nat) : List Nat :=
  msg ++ 128 :: (List.replicate ((119 - msg.length % 64) % 64) 0 ++ le8 (8 * msg.length))

/-- The four bytes of a 32-bit word, little-endian. -/
def leBytes4 (n : Nat) : List Nat :=
  [n % 256, n / 256 % 256, n / 65536 % 256, n / 16777216 % 256]

/-- The UTF-8 bytes of `s`. Every string this development hashes is the
output of `jsonDumpsSorted`, which is ASCII-only (`jsonEscapeChar` escapes
everything outside `0x20`-`0x7e`), so the code points are the bytes. -/
def strBytes (s : String) : List Nat := s.toList.map Char.toNat

/-- `hashlib.md5(s.encode()).hexdigest()`: the lowercase 32-character hex
digest of the MD5 of `s`. -/
def md5hex (s : String) : String :=
  let padded := md5Pad (strBytes s)
  let st := (toChunksN (padded.length / 64) padded).foldl
    (fun st ch => md5Chunk st (chunkWords ch))
    (1732584193, 4023233417, 2562383102, 271733878)
  String.mk ((leBytes4 st.1 ++ leBytes4 st.2.1 ++ leBytes4 st.2.2.1 ++
    leBytes4 st.2.2.2).flatMap (fun b => [hexDigitChar (b / 16), hexDigitChar (b % 16)]))

/-! ## Python dict update

`d[k] = v` keeps the position of an existing key and overwrites its value;
a new key is appended (insertion order). -/

/-- Python `d[k] = v` on an insertion-ordered association list. -/
def dictSet {α : Type} (m : List (String × α)) (k : String) (v : α) :
    List (String × α) :=
  if m.any (fun p => p.1 == k) then
    m.map (fun p => if p.1 == k then (k, v) else p)
  else m ++ [(k, v)]

/-! ## `MappingBasedProviderSelector` -/

/-- `MappingBasedProviderSelector.__init__`: an insertion-ordered mapping
from URL substring pattern to provider-type label, plus a default label
(Python default argument `"openai"`). -/
structure MappingBasedProviderSelector : Type where
  mappings : List (String × String)
  default_provider : String

/-- The `for pattern, provider_type in mappings.items()` loop of
`select_provider_type`: the label of the first pattern contained in
`url`, else the default `d`. -/
def selectLoop : List (String × String) → String → String → String
  | [], _, d => d
  | (pattern, provider_type) :: rest, url, d =>
    if strIn pattern url then provider_type else selectLoop rest url d

/-- `MappingBasedProviderSelector.select_provider_type(config)`:
reads `config.get("backend_url", "")` and scans the mapping in order. -/
def MappingBasedProviderSelector.select_provider_type
    (s : MappingBasedProviderSelector) (config : Config) : String :=
  selectLoop s.mappings (Config.getD config "backend_url" "") s.default_provider

/-! ## `SearchProviderRegistry`

Creator functions are Python callables that may themselves raise and may
allocate objects; a creator takes the configuration and the next fresh
object id, and returns its result together with the next free id. -/

/-- The type of registered creator functions. -/
def Creator (P : Type) : Type := Config → Nat → Except PyErr P × Nat

/-- `SearchProviderRegistry`: a dict from provider-type label to creator. -/
structure SearchProviderRegistry (P : Type) : Type where
  providers : List (String × Creator P)

/-- `SearchProviderRegistry.register(provider_type, creator)`:
`self._providers[provider_type] = creator`. -/
def SearchProviderRegistry.register {P : Type} (r : SearchProviderRegistry P)
    (provider_type : String) (creator : Creator P) : SearchProviderRegistry P :=
  ⟨dictSet r.providers provider_type creator⟩

/-- `SearchProviderRegistry.create(provider_type, config)`: raises
`ValueError(f"Unknown provider type: {provider_type}")` when the label is
absent, otherwise calls the registered creator on `config`. -/
def SearchProviderRegistry.create {P : Type} (r : SearchProviderRegistry P)
    (provider_type : String) (config : Config) (ctr : Nat) :
    Except PyErr P × Nat :=
  match r.providers.lookup provider_type with
  | none => (.error (.valueError ("Unknown provider type: " ++ provider_type)), ctr)
  | some creator => creator config ctr

/-- `SearchProviderRegistry.get_available_types()`:
`list(self._providers.keys())`. -/
def SearchProviderRegistry.get_available_types {P : Type}
    (r : SearchProviderRegistry P) : List String :=
  r.providers.map Prod.fst

/-! ## `SearchProviderFactoryImpl` -/

/-- `SearchProviderFactoryImpl`: a registry, a selector (through the
`ProviderSelector` interface, a pure function from configuration to
label), and the `_cache` dict from cache key to provider instance. -/
structure SearchProviderFactoryImpl (P : Type) : Type where
  registry : SearchProviderRegistry P
  selector : Config → String
  cache : List (String × P)

/-- The cache key of `SearchProviderFactoryImpl.create_provider`:
`hashlib.md5(json.dumps(cache_key_data, sort_keys=True).encode()).hexdigest()`
where `cache_key_data` maps `"backend_url"` to
`config.get("backend_url", "")` and `"model"` to
`config.get("quick_think_llm", "")`. -/
def cache_key (config : Config) : String :=
  md5hex (jsonDumpsSorted
    [("backend_url", Config.getD config "backend_url" ""),
     ("model", Config.getD config "quick_think_llm" "")])

/-- `SearchProviderFactoryImpl.create_provider(config)`: on a cache hit
return the stored instance; on a miss select the provider type, build the
instance through the registry, store it under the cache key and return
it. The returned triple carries the result, the factory object as it is
after the call (in Python the mutation is in place and an exception
leaves the already-performed mutations behind), and the allocation
counter. -/
def SearchProviderFactoryImpl.create_provider {P : Type}
    (f : SearchProviderFactoryImpl P) (config : Config) (ctr : Nat) :
    Except PyErr P × SearchProviderFactoryImpl P × Nat :=
  let key := cache_key config
  match f.cache.lookup key with
  | some provider => (.ok provider, f, ctr)
  | none =>
    let provider_type := f.selector config
    match f.registry.create provider_type config ctr with
    | (.error e, ctr1) => (.error e, f, ctr1)
    | (.ok provider, ctr1) =>
      (.ok provider, { f with cache := dictSet f.cache key provider }, ctr1)

/-- `SearchProviderFactoryImpl.clear_cache()`: `self._cache.clear()`. -/
def SearchProviderFactoryImpl.clear_cache {P : Type}
    (f : SearchProviderFactoryImpl P) : SearchProviderFactoryImpl P :=
  { f with cache := [] }

/-- `SearchProviderFactoryImpl.get_available_provider_types()`. -/
def SearchProviderFactoryImpl.get_available_provider_types {P : Type}
    (f : SearchProviderFactoryImpl P) : List String :=
  f.registry.get_available_types

/-! ## `create_search_provider_factory` and its concrete providers

Provider instances are stamped with the allocation id `objId` current at
their construction: two constructions never share an `objId`, which is
exactly Python object identity. -/

/-- The search providers the default factory can construct:
`GoogleSearchProvider(quick_think_llm)` and
`OpenAISearchProvider(quick_think_llm, backend_url)`. -/
inductive SearchProvider : Type where
  | google (quick_think_llm : String) (objId : Nat)
  | openai (quick_think_llm : String) (backend_url : String) (objId : Nat)
deriving DecidableEq, Repr

/-- The allocation id stamped on a provider instance. -/
def SearchProvider.objId : SearchProvider → Nat
  | .google _ i => i
  | .openai _ _ i => i

/-- The same provider value re-stamped with allocation id `i`. -/
def SearchProvider.withObjId : SearchProvider → Nat → SearchProvider
  | .google m _, i => .google m i
  | .openai m u _, i => .openai m u i

/-- `create_google_provider(config)`:
`GoogleSearchProvider(config["quick_think_llm"])`; `config[...]` raises
`KeyError` on a missing key. -/
def create_google_provider : Creator SearchProvider := fun config ctr =>
  match Config.get? config "quick_think_llm" with
  | none => (.error (.keyError "quick_think_llm"), ctr)
  | some m => (.ok (.google m ctr), ctr + 1)

/-- `create_openai_provider(config)`:
`OpenAISearchProvider(config["quick_think_llm"], config["backend_url"])`;
the arguments are evaluated left to right, so a missing
`quick_think_llm` raises first. -/
def create_openai_provider : Creator SearchProvider := fun config ctr =>
  match Config.get? config "quick_think_llm" with
  | none => (.error (.keyError "quick_think_llm"), ctr)
  | some m =>
    match Config.get? config "backend_url" with
    | none => (.error (.keyError "backend_url"), ctr)
    | some u => (.ok (.openai m u ctr), ctr + 1)

/-- The `url_mappings` dict of `create_search_provider_factory`. -/
def url_mappings : List (String × String) :=
  [("generativelanguage.googleapis.com", "google"),
   ("api.openai.com", "openai")]

/-- `create_search_provider_factory()`: registry with the google and
openai creators, a `MappingBasedProviderSelector` over `url_mappings`
with default `"openai"`, and an empty cache. -/
def create_search_provider_factory : SearchProviderFactoryImpl SearchProvider :=
  { registry :=
      ((SearchProviderRegistry.register ⟨[]⟩ "google" create_google_provider).register
        "openai" create_openai_provider)
  , selector :=
      (MappingBasedProviderSelector.select_provider_type
        ⟨url_mappings, "openai"⟩)
  , cache := [] }

/-! ## `EmbeddingProviderFactory` -/

/-- The embedding providers, each holding the `backend_url` it was
constructed with. No identity tracking is needed: the embedding factory
is stateless and constructs a fresh instance on every call. -/
inductive EmbeddingProvider : Type where
  | gemini (backend_url : String)
  | ollama (backend_url : String)
  | openai (backend_url : String)
deriving DecidableEq, Repr

/-- The `if`/`elif`/`else` chain of `EmbeddingProviderFactory.create_provider`
once `backend_url` is in hand: the Gemini pattern first, then the local
Ollama pattern, else the OpenAI-compatible default. -/
def embeddingDispatch (backend_url : String) : EmbeddingProvider :=
  if strIn "generativelanguage.googleapis.com" backend_url then
    .gemini backend_url
  else if strIn "localhost:11434" backend_url then
    .ollama backend_url
  else
    .openai backend_url

/-- `EmbeddingProviderFactory.create_provider(config)`: reads
`config["backend_url"]` (raising `KeyError` when absent), then dispatches
on the ordered substring tests of `embeddingDispatch`. -/
def EmbeddingProviderFactory.create_provider (config : Config) :
    Except PyErr EmbeddingProvider :=
  match Config.get? config "backend_url" with
  | none => .error (.keyError "backend_url")
  | some backend_url => .ok (embeddingDispatch backend_url)

/-- What the default factory's selector plus registry build from a
configuration, up to the allocation id (recorded as 0 here): the google
constructor when the Gemini URL pattern matches, else the openai
constructor, each raising `KeyError` on its missing fields. -/
def defaultConstruct (c : Config) : Except PyErr SearchProvider :=
  if strIn "generativelanguage.googleapis.com" (Config.getD c "backend_url" "") then
    match Config.get? c "quick_think_llm" with
    | none => .error (.keyError "quick_think_llm")
    | some m => .ok (.google m 0)
  else
    match Config.get? c "quick_think_llm" with
    | none => .error (.keyError "quick_think_llm")
    | some m =>
      match Config.get? c "backend_url" with
      | none => .error (.keyError "backend_url")
      | some u => .ok (.openai m u 0)

/-! ## Concrete configurations and factory states used in witnesses -/

/-- The spec's concrete Gemini scenario configuration. -/
def cfgGeminiPro : Config :=
  [("backend_url", "https://generativelanguage.googleapis.com/v1"),
   ("quick_think_llm", "gemini-pro")]

/-- The same relevant fields as `cfgGeminiPro`, plus an unrelated field. -/
def cfgGeminiProExtra : Config :=
  [("backend_url", "https://generativelanguage.googleapis.com/v1"),
   ("quick_think_llm", "gemini-pro"), ("deep_think_llm", "o1")]

/-- Same `backend_url` as `cfgGeminiPro`, different `quick_think_llm`. -/
def cfgGeminiFlash : Config :=
  [("backend_url", "https://generativelanguage.googleapis.com/v1"),
   ("quick_think_llm", "gemini-flash")]

/-- A Gemini URL but no `quick_think_llm`: the google creator raises. -/
def cfgGeminiNoLLM : Config :=
  [("backend_url", "https://generativelanguage.googleapis.com/v1")]

/-- The default factory after one successful call on `cfgGeminiPro`. -/
def facAfterA : SearchProviderFactoryImpl SearchProvider :=
  { registry := create_search_provider_factory.registry
  , selector := create_search_provider_factory.selector
  , cache := [(cache_key cfgGeminiPro, .google "gemini-pro" 0)] }

/-- `facAfterA` after a further successful call on `cfgGeminiFlash`. -/
def facAfterAB : SearchProviderFactoryImpl SearchProvider :=
  { registry := create_search_provider_factory.registry
  , selector := create_search_provider_factory.selector
  , cache := [(cache_key cfgGeminiPro, .google "gemini-pro" 0),
              (cache_key cfgGeminiFlash, .google "gemini-flash" 1)] }

/-! ## Sanity checks of the MD5 model -/

/-- Sanity check of the MD5 model against RFC 1321's first test vector. -/
example : md5hex "" = "d41d8cd98f00b204e9800998ecf8427e" := by decide

/-- Sanity check of the MD5 model against RFC 1321's "abc" test vector. -/
example : md5hex "abc" = "900150983cd24fb0d6963f7d28e17f72" := by decide

/-! ## Helper lemmas about dict lookup and update -/

/-- A dict with no entry under `k` (by `any`) looks up `k` to `none`. -/
theorem lookup_eq_none_of_any_eq_false {α : Type} (m : List (String × α))
    (k : String) (h : m.any (fun p => p.1 == k) = false) :
    m.lookup k = none := by
  induction m with
  | nil => rfl
  | cons hd tl ih =>
    simp only [List.any_cons, Bool.or_eq_false_iff] at h
    obtain ⟨h1, h2⟩ := h
    have hne : k ≠ hd.1 := fun he => by simp [he] at h1
    cases hd with
    | mk a b =>
      simp only [List.lookup]
      rw [show (k == a) = false by simpa using hne]
      exact ih h2

/-- Appending a fresh entry makes it found when the key was absent. -/
theorem lookup_append_single {α : Type} (m : List (String × α)) (k : String)
    (v : α) (h : m.lookup k = none) : (m ++ [(k, v)]).lookup k = some v := by
  induction m with
  | nil => simp [List.lookup]
  | cons hd tl ih =>
    cases hd with
    | mk a b =>
      cases hk : (k == a) with
      | true => simp [List.lookup, hk] at h
      | false =>
        simp only [List.lookup, hk] at h
        simp only [List.cons_append, List.lookup, hk]
        exact ih h

/-- Overwriting the value under `k` in place makes it found, provided the
key occurs. -/
theorem lookup_map_replace {α : Type} (m : List (String × α)) (k : String)
    (v : α) (h : m.any (fun p => p.1 == k) = true) :
    (m.map (fun p => if p.1 == k then (k, v) else p)).lookup k = some v := by
  induction m with
  | nil => simp at h
  | cons hd tl ih =>
    cases hd with
    | mk a b =>
      simp only [List.map_cons]
      by_cases hak : a = k
      · subst hak
        rw [if_pos (by simp : (a == a) = true)]
        simp [List.lookup]
      · have hakb : (a == k) = false := by simpa using hak
        rw [if_neg (by simp [hakb])]
        have h2 : tl.any (fun p => p.1 == k) = true := by
          simp only [List.any_cons, Bool.or_eq_true] at h
          rcases h with h1 | h1
          · rw [hakb] at h1; exact absurd h1 (by simp)
          · exact h1
        have hka : (k == a) = false := by
          simpa using fun he => hak he.symm
        simp only [List.lookup, hka]
        exact ih h2

/-- Replacing the value under `k` leaves lookups of other keys alone. -/
theorem lookup_map_replace_ne {α : Type} (m : List (String × α))
    (k v0 : String) (v : α) (h : (v0 == k) = false) :
    (m.map (fun p => if p.1 == k then (k, v) else p)).lookup v0 = m.lookup v0 := by
  induction m with
  | nil => rfl
  | cons hd tl ih =>
    cases hd with
    | mk a b =>
      simp only [List.map_cons]
      by_cases hak : a = k
      · subst hak
        rw [if_pos (by simp)]
        simp only [List.lookup, h]
        exact ih
      · rw [if_neg (by simpa using hak)]
        cases hva : (v0 == a) with
        | true => simp only [List.lookup, hva]
        | false =>
          simp only [List.lookup, hva]
          exact ih

/-- Appending a fresh entry leaves lookups of other keys alone. -/
theorem lookup_append_single_ne {α : Type} (m : List (String × α))
    (k v0 : String) (v : α) (h : (v0 == k) = false) :
    (m ++ [(k, v)]).lookup v0 = m.lookup v0 := by
  induction m with
  | nil => simp [List.lookup, h]
  | cons hd tl ih =>
    cases hd with
    | mk a b =>
      cases hk : (v0 == a) with
      | true => simp only [List.cons_append, List.lookup, hk]
      | false =>
        simp only [List.cons_append, List.lookup, hk]
        exact ih

/-- After `d[k] = v`, looking up `k` yields `v`. -/
theorem lookup_dictSet {α : Type} (m : List (String × α)) (k : String)
    (v : α) : (dictSet m k v).lookup k = some v := by
  unfold dictSet
  cases h : m.any (fun p => p.1 == k) with
  | true => simpa [h] using lookup_map_replace m k v h
  | false =>
    simpa [h] using lookup_append_single m k v (lookup_eq_none_of_any_eq_false m k h)

/-- After `d[k] = v`, looking up any other key is unchanged. -/
theorem lookup_dictSet_ne {α : Type} (m : List (String × α)) (k v0 : String)
    (v : α) (h : (v0 == k) = false) :
    (dictSet m k v).lookup v0 = m.lookup v0 := by
  unfold dictSet
  cases ha : m.any (fun p => p.1 == k) with
  | true => simpa [ha] using lookup_map_replace_ne m k v0 v h
  | false => simpa [ha] using lookup_append_single_ne m k v0 v h

/-! ## Unique decodability of the JSON string escaping

`decodeOne` undoes one `jsonEscapeChar` block, which makes concatenations
of escape blocks uniquely decodable and the escaping injective: two
configurations with different relevant field values always serialize to
different cache-key payloads. -/

/-- `hexVal` inverts `hexDigitChar` on digit values. -/
theorem hexVal_hexDigitChar : ∀ d : Nat, d < 16 → hexVal (hexDigitChar d) = d := by
  decide

/-- No character's code point lies in the UTF-16 surrogate range. -/
theorem char_toNat_not_surrogate (c : Char) :
    c.toNat < 55296 ∨ 57343 < c.toNat := by
  cases c.valid with
  | inl h => exact Or.inl (UInt32.toNat_lt_of_lt (by decide) h)
  | inr h => exact Or.inr (UInt32.lt_toNat_of_lt (by decide) h.1)

/-- Character code points are below `0x110000`. -/
theorem char_toNat_lt_size (c : Char) : c.toNat < 1114112 := by
  have hcv : c.toNat = c.val.toNat := rfl
  cases c.valid with
  | inl h =>
    have := UInt32.toNat_lt_of_lt (by decide : (55296 : Nat) < UInt32.size) h
    omega
  | inr h => exact UInt32.toNat_lt_of_lt (by decide) h.2

/-- Decoding a non-surrogate `\uXXXX` block. -/
theorem decodeOne_uEscape (n : Nat) (hlt : n < 65536)
    (hns : ¬(55296 ≤ n ∧ n < 56320)) (rest : List Char) :
    decodeOne (uEscape n ++ rest) = some (Char.ofNat n, rest) := by
  have e3 : hexVal (hexDigitChar (n / 4096 % 16)) = n / 4096 % 16 :=
    hexVal_hexDigitChar _ (Nat.mod_lt _ (by omega))
  have e2 : hexVal (hexDigitChar (n / 256 % 16)) = n / 256 % 16 :=
    hexVal_hexDigitChar _ (Nat.mod_lt _ (by omega))
  have e1 : hexVal (hexDigitChar (n / 16 % 16)) = n / 16 % 16 :=
    hexVal_hexDigitChar _ (Nat.mod_lt _ (by omega))
  have e0 : hexVal (hexDigitChar (n % 16)) = n % 16 :=
    hexVal_hexDigitChar _ (Nat.mod_lt _ (by omega))
  have hn : n / 4096 % 16 * 4096 + n / 256 % 16 * 256 + n / 16 % 16 * 16 +
      n % 16 = n := by omega
  show decodeOne ('\\' :: 'u' :: hexDigitChar (n / 4096 % 16) ::
    hexDigitChar (n / 256 % 16) :: hexDigitChar (n / 16 % 16) ::
    hexDigitChar (n % 16) :: rest) = some (Char.ofNat n, rest)
  simp only [decodeOne, if_pos rfl, e3, e2, e1, e0, hn]
  rw [if_neg hns]
  simp

/-- Decoding a surrogate-pair escape of an astral code point. -/
theorem decodeOne_surrogatePair (n : Nat) (hge : 65536 ≤ n) (hlt : n < 1114112)
    (rest : List Char) :
    decodeOne ((uEscape (55296 + (n - 65536) / 1024) ++
        uEscape (56320 + (n - 65536) % 1024)) ++ rest) =
      some (Char.ofNat n, rest) := by
  have hhi : 55296 ≤ 55296 + (n - 65536) / 1024 ∧
      55296 + (n - 65536) / 1024 < 56320 := by omega
  have ehi3 : hexVal (hexDigitChar ((55296 + (n - 65536) / 1024) / 4096 % 16)) =
      (55296 + (n - 65536) / 1024) / 4096 % 16 :=
    hexVal_hexDigitChar _ (Nat.mod_lt _ (by omega))
  have ehi2 : hexVal (hexDigitChar ((55296 + (n - 65536) / 1024) / 256 % 16)) =
      (55296 + (n - 65536) / 1024) / 256 % 16 :=
    hexVal_hexDigitChar _ (Nat.mod_lt _ (by omega))
  have ehi1 : hexVal (hexDigitChar ((55296 + (n - 65536) / 1024) / 16 % 16)) =
      (55296 + (n - 65536) / 1024) / 16 % 16 :=
    hexVal_hexDigitChar _ (Nat.mod_lt _ (by omega))
  have ehi0 : hexVal (hexDigitChar ((55296 + (n - 65536) / 1024) % 16)) =
      (55296 + (n - 65536) / 1024) % 16 :=
    hexVal_hexDigitChar _ (Nat.mod_lt _ (by omega))
  have elo3 : hexVal (hexDigitChar ((56320 + (n - 65536) % 1024) / 4096 % 16)) =
      (56320 + (n - 65536) % 1024) / 4096 % 16 :=
    hexVal_hexDigitChar _ (Nat.mod_lt _ (by omega))
  have elo2 : hexVal (hexDigitChar ((56320 + (n - 65536) % 1024) / 256 % 16)) =
      (56320 + (n - 65536) % 1024) / 256 % 16 :=
    hexVal_hexDigitChar _ (Nat.mod_lt _ (by omega))
  have elo1 : hexVal (hexDigitChar ((56320 + (n - 65536) % 1024) / 16 % 16)) =
      (56320 + (n - 65536) % 1024) / 16 % 16 :=
    hexVal_hexDigitChar _ (Nat.mod_lt _ (by omega))
  have elo0 : hexVal (hexDigitChar ((56320 + (n - 65536) % 1024) % 16)) =
      (56320 + (n - 65536) % 1024) % 16 :=
    hexVal_hexDigitChar _ (Nat.mod_lt _ (by omega))
  have hnhi : (55296 + (n - 65536) / 1024) / 4096 % 16 * 4096 +
      (55296 + (n - 65536) / 1024) / 256 % 16 * 256 +
      (55296 + (n - 65536) / 1024) / 16 % 16 * 16 +
      (55296 + (n - 65536) / 1024) % 16 = 55296 + (n - 65536) / 1024 := by
    omega
  have hnlo : (56320 + (n - 65536) % 1024) / 4096 % 16 * 4096 +
      (56320 + (n - 65536) % 1024) / 256 % 16 * 256 +
      (56320 + (n - 65536) % 1024) / 16 % 16 * 16 +
      (56320 + (n - 65536) % 1024) % 16 = 56320 + (n - 65536) % 1024 := by
    omega
  have hrec : 65536 + ((55296 + (n - 65536) / 1024) - 55296) * 1024 +
      ((56320 + (n - 65536) % 1024) - 56320) = n := by omega
  show decodeOne ('\\' :: 'u' ::
      hexDigitChar ((55296 + (n - 65536) / 1024) / 4096 % 16) ::
      hexDigitChar ((55296 + (n - 65536) / 1024) / 256 % 16) ::
      hexDigitChar ((55296 + (n - 65536) / 1024) / 16 % 16) ::
      hexDigitChar ((55296 + (n - 65536) / 1024) % 16) :: '\\' :: 'u' ::
      hexDigitChar ((56320 + (n - 65536) % 1024) / 4096 % 16) ::
      hexDigitChar ((56320 + (n - 65536) % 1024) / 256 % 16) ::
      hexDigitChar ((56320 + (n - 65536) % 1024) / 16 % 16) ::
      hexDigitChar ((56320 + (n - 65536) % 1024) % 16) :: rest) =
    some (Char.ofNat n, rest)
  simp only [decodeOne, if_pos rfl, ehi3, ehi2, ehi1, ehi0, elo3, elo2, elo1,
    elo0, hnhi, hnlo]
  simp only [if_true, and_self]
  rw [hrec, if_pos hhi]

/-- `decodeOne` undoes `jsonEscapeChar`: one escape block followed by
anything decodes back to the escaped character and the remainder. -/
theorem decodeOne_escape (c : Char) (rest : List Char) :
    decodeOne (jsonEscapeChar c ++ rest) = some (c, rest) := by
  have hofn : Char.ofNat c.toNat = c := Char.ofNat_toNat c
  by_cases h34 : c.toNat = 34
  · have hc : c = '"' := by rw [← hofn, h34]
    subst hc; rfl
  · by_cases h92 : c.toNat = 92
    · have hc : c = '\\' := by rw [← hofn, h92]
      subst hc; rfl
    · by_cases h8 : c.toNat = 8
      · have hc : c = '\x08' := by rw [← hofn, h8]
        subst hc; rfl
      · by_cases h9 : c.toNat = 9
        · have hc : c = '\x09' := by rw [← hofn, h9]
          subst hc; rfl
        · by_cases h10 : c.toNat = 10
          · have hc : c = '\x0a' := by rw [← hofn, h10]
            subst hc; rfl
          · by_cases h12 : c.toNat = 12
            · have hc : c = '\x0c' := by rw [← hofn, h12]
              subst hc; rfl
            · by_cases h13 : c.toNat = 13
              · have hc : c = '\x0d' := by rw [← hofn, h13]
                subst hc; rfl
              · by_cases hc32 : c.toNat < 32
                · have hesc : jsonEscapeChar c = uEscape c.toNat := by
                    simp [jsonEscapeChar, h34, h92, h8, h9, h10, h12, h13, hc32]
                  rw [hesc, decodeOne_uEscape c.toNat (by omega) (by omega),
                    hofn]
                · by_cases hc127 : c.toNat < 127
                  · have hesc : jsonEscapeChar c = [c] := by
                      simp [jsonEscapeChar, h34, h92, h8, h9, h10, h12, h13,
                        hc32, hc127]
                    rw [hesc]
                    have hcne : ¬(c = '\\') := fun he => h92 (by rw [he]; rfl)
                    show decodeOne (c :: rest) = some (c, rest)
                    simp [decodeOne, hcne]
                  · by_cases hc65536 : c.toNat < 65536
                    · have hesc : jsonEscapeChar c = uEscape c.toNat := by
                        simp [jsonEscapeChar, h34, h92, h8, h9, h10, h12, h13,
                          hc32, hc127, hc65536]
                      have hns := char_toNat_not_surrogate c
                      rw [hesc, decodeOne_uEscape c.toNat hc65536 (by omega),
                        hofn]
                    · have hesc : jsonEscapeChar c =
                          uEscape (55296 + (c.toNat - 65536) / 1024) ++
                          uEscape (56320 + (c.toNat - 65536) % 1024) := by
                        simp [jsonEscapeChar, h34, h92, h8, h9, h10, h12, h13,
                          hc32, hc127, hc65536]
                      rw [hesc, decodeOne_surrogatePair c.toNat (by omega)
                        (char_toNat_lt_size c), hofn]

/-- Concatenations of escape blocks are uniquely decodable: the escaping
is injective on character lists. -/
theorem flatMap_escape_inj (l1 l2 : List Char)
    (h : l1.flatMap jsonEscapeChar = l2.flatMap jsonEscapeChar) :
    l1 = l2 := by
  induction l1 generalizing l2 with
  | nil =>
    cases l2 with
    | nil => rfl
    | cons c t =>
      have hd := decodeOne_escape c (t.flatMap jsonEscapeChar)
      rw [show (c :: t).flatMap jsonEscapeChar =
        jsonEscapeChar c ++ t.flatMap jsonEscapeChar from rfl] at h
      rw [← h] at hd
      simp [decodeOne] at hd
  | cons c1 t1 ih =>
    cases l2 with
    | nil =>
      have hd := decodeOne_escape c1 (t1.flatMap jsonEscapeChar)
      rw [show (c1 :: t1).flatMap jsonEscapeChar =
        jsonEscapeChar c1 ++ t1.flatMap jsonEscapeChar from rfl] at h
      rw [h] at hd
      simp [decodeOne] at hd
    | cons c2 t2 =>
      have hd1 := decodeOne_escape c1 (t1.flatMap jsonEscapeChar)
      have hd2 := decodeOne_escape c2 (t2.flatMap jsonEscapeChar)
      rw [show (c1 :: t1).flatMap jsonEscapeChar =
        jsonEscapeChar c1 ++ t1.flatMap jsonEscapeChar from rfl,
        show (c2 :: t2).flatMap jsonEscapeChar =
        jsonEscapeChar c2 ++ t2.flatMap jsonEscapeChar from rfl] at h
      rw [h] at hd1
      rw [hd2] at hd1
      injection hd1 with hd1
      injection hd1 with hc ht
      rw [hc]
      rw [ih t2 ht.symm]

/-- `jsonStr` is injective: distinct strings have distinct JSON literals. -/
theorem jsonStr_inj (a b : String) (h : jsonStr a = jsonStr b) : a = b := by
  have hd : ('"' :: a.data.flatMap jsonEscapeChar) ++ ['"'] =
      ('"' :: b.data.flatMap jsonEscapeChar) ++ ['"'] := congrArg String.data h
  have hl := List.append_cancel_right hd
  injection hl with _ hl
  exact String.ext (flatMap_escape_inj a.data b.data hl)

/-- The sorted-key serialization of the two-field cache dict, written as
an explicit string: `"backend_url"` sorts before `"model"`. -/
theorem jsonDumpsSorted_pair (x y : String) :
    jsonDumpsSorted [("backend_url", x), ("model", y)] =
      "\x7b\"backend_url\": " ++ jsonStr x ++ ", \"model\": " ++
        jsonStr y ++ "\x7d" := by
  have h : jsonDumpsSorted [("backend_url", x), ("model", y)] =
      ("\x7b" ++ ((((jsonStr "backend_url" ++ ": ") ++ jsonStr x) ++ ", ") ++
        ((jsonStr "model" ++ ": ") ++ jsonStr y))) ++ "\x7d" := rfl
  rw [h]
  simp only [String.append_assoc]
  rfl

/-- Distinct `model` values (with the same `backend_url`) serialize to
distinct cache-key payloads: the input to MD5 always differs. -/
theorem cache_payload_ne (b m1 m2 : String) (hm : m1 ≠ m2) :
    jsonDumpsSorted [("backend_url", b), ("model", m1)] ≠
      jsonDumpsSorted [("backend_url", b), ("model", m2)] := by
  rw [jsonDumpsSorted_pair, jsonDumpsSorted_pair]
  intro he
  apply hm
  apply jsonStr_inj
  apply String.ext
  have hd2 : (((("\x7b\"backend_url\": ").data ++ (jsonStr b).data) ++
      (", \"model\": ").data) ++ (jsonStr m1).data) ++ ("\x7d").data =
      (((("\x7b\"backend_url\": ").data ++ (jsonStr b).data) ++
      (", \"model\": ").data) ++ (jsonStr m2).data) ++ ("\x7d").data :=
    congrArg String.data he
  exact List.append_cancel_left (List.append_cancel_right hd2)

/-! ## Helper lemmas about the caching factory -/

/-- The cache key depends only on the two relevant configuration fields. -/
theorem cache_key_congr (c1 c2 : Config)
    (hb : Config.getD c1 "backend_url" "" = Config.getD c2 "backend_url" "")
    (hm : Config.getD c1 "quick_think_llm" "" = Config.getD c2 "quick_think_llm" "") :
    cache_key c1 = cache_key c2 := by
  unfold cache_key
  rw [hb, hm]

/-- A cache hit returns the stored instance and leaves everything alone. -/
theorem create_provider_hit {P : Type} (f : SearchProviderFactoryImpl P)
    (c : Config) (ctr : Nat) (p : P)
    (h : f.cache.lookup (cache_key c) = some p) :
    f.create_provider c ctr = (.ok p, f, ctr) := by
  simp only [SearchProviderFactoryImpl.create_provider, h]

/-- After a successful call, the computed key maps to the returned
instance and the registry and selector are untouched. -/
theorem create_provider_ok_state {P : Type} (f : SearchProviderFactoryImpl P)
    (c : Config) (ctr : Nat) (p : P) (f1 : SearchProviderFactoryImpl P)
    (ctr1 : Nat) (h : f.create_provider c ctr = (.ok p, f1, ctr1)) :
    f1.cache.lookup (cache_key c) = some p ∧
      f1.registry = f.registry ∧ f1.selector = f.selector := by
  simp only [SearchProviderFactoryImpl.create_provider] at h
  cases hl : f.cache.lookup (cache_key c) with
  | some q =>
    rw [hl] at h
    simp only [Prod.mk.injEq, Except.ok.injEq] at h
    obtain ⟨hp, hf, _⟩ := h
    subst hp
    subst hf
    exact ⟨hl, rfl, rfl⟩
  | none =>
    rw [hl] at h
    cases hr : f.registry.create (f.selector c) c ctr with
    | mk res ctrx =>
      rw [hr] at h
      cases res with
      | error e => simp at h
      | ok q =>
        simp only [Prod.mk.injEq, Except.ok.injEq] at h
        obtain ⟨hp, hf, _⟩ := h
        subst hp
        subst hf
        exact ⟨lookup_dictSet _ _ _, rfl, rfl⟩

/-- Any call leaves cache entries under other keys, the registry and the
selector untouched. -/
theorem create_provider_preserve {P : Type} (f : SearchProviderFactoryImpl P)
    (c : Config) (ctr : Nat) (res : Except PyErr P)
    (f1 : SearchProviderFactoryImpl P) (ctr1 : Nat)
    (h : f.create_provider c ctr = (res, f1, ctr1)) (k : String)
    (hk : (k == cache_key c) = false) :
    f1.cache.lookup k = f.cache.lookup k := by
  simp only [SearchProviderFactoryImpl.create_provider] at h
  cases hl : f.cache.lookup (cache_key c) with
  | some q =>
    rw [hl] at h
    simp only [Prod.mk.injEq] at h
    obtain ⟨_, hf, _⟩ := h
    subst hf
    rfl
  | none =>
    rw [hl] at h
    cases hr : f.registry.create (f.selector c) c ctr with
    | mk r ctrx =>
      rw [hr] at h
      cases r with
      | error e =>
        simp only [Prod.mk.injEq] at h
        obtain ⟨_, hf, _⟩ := h
        subst hf
        rfl
      | ok q =>
        simp only [Prod.mk.injEq] at h
        obtain ⟨_, hf, _⟩ := h
        subst hf
        exact lookup_dictSet_ne f.cache (cache_key c) k q hk

/-- A failing call leaves the factory exactly as it was, and can only
happen when the computed key was not cached. -/
theorem create_provider_error_state {P : Type} (f : SearchProviderFactoryImpl P)
    (c : Config) (ctr : Nat) (e : PyErr) (f1 : SearchProviderFactoryImpl P)
    (ctr1 : Nat) (h : f.create_provider c ctr = (.error e, f1, ctr1)) :
    f1 = f ∧ f.cache.lookup (cache_key c) = none := by
  simp only [SearchProviderFactoryImpl.create_provider] at h
  cases hl : f.cache.lookup (cache_key c) with
  | some q =>
    rw [hl] at h
    simp at h
  | none =>
    rw [hl] at h
    cases hr : f.registry.create (f.selector c) c ctr with
    | mk r ctrx =>
      rw [hr] at h
      cases r with
      | error e1 =>
        simp only [Prod.mk.injEq] at h
        exact ⟨h.2.1.symm, rfl⟩
      | ok q => simp at h

/-- Re-stamping twice keeps only the last id. -/
theorem withObjId_withObjId (p : SearchProvider) (i j : Nat) :
    (p.withObjId i).withObjId j = p.withObjId j := by
  cases p <;> rfl

/-- Re-stamping sets the id. -/
theorem objId_withObjId (p : SearchProvider) (i : Nat) :
    (p.withObjId i).objId = i := by
  cases p <;> rfl

/-- The selection-then-construction step of the default factory equals
`defaultConstruct`, stamped with the current allocation id. -/
theorem default_create_eq (c : Config) (ctr : Nat) :
    create_search_provider_factory.registry.create
        (create_search_provider_factory.selector c) c ctr =
      (match defaultConstruct c with
       | .error e => (.error e, ctr)
       | .ok q => (.ok (q.withObjId ctr), ctr + 1)) := by
  have hsel : create_search_provider_factory.selector c =
      (if strIn "generativelanguage.googleapis.com" (Config.getD c "backend_url" "")
        then "google"
        else if strIn "api.openai.com" (Config.getD c "backend_url" "")
          then "openai" else "openai") := rfl
  cases hg : strIn "generativelanguage.googleapis.com" (Config.getD c "backend_url" "") with
  | true =>
    rw [hsel, hg]
    simp only [if_true]
    have hcr : create_search_provider_factory.registry.create "google" c ctr =
        create_google_provider c ctr := rfl
    rw [hcr]
    unfold create_google_provider defaultConstruct
    rw [hg]
    simp only [if_true]
    cases Config.get? c "quick_think_llm" <;> rfl
  | false =>
    rw [hsel, hg]
    have hsame : (if strIn "api.openai.com" (Config.getD c "backend_url" "") = true
        then "openai" else "openai") = "openai" := by
      cases strIn "api.openai.com" (Config.getD c "backend_url" "") <;> rfl
    simp only [Bool.false_eq_true, if_false]
    rw [hsame]
    have hcr : create_search_provider_factory.registry.create "openai" c ctr =
        create_openai_provider c ctr := rfl
    rw [hcr]
    unfold create_openai_provider defaultConstruct
    rw [hg]
    simp only [Bool.false_eq_true, if_false]
    cases Config.get? c "quick_think_llm" with
    | none => rfl
    | some m => cases Config.get? c "backend_url" <;> rfl

/-- A cache miss on a factory with the default registry and selector runs
`defaultConstruct` at the current allocation id and caches the result. -/
theorem create_provider_miss_default (f : SearchProviderFactoryImpl SearchProvider)
    (c : Config) (ctr : Nat)
    (hreg : f.registry = create_search_provider_factory.registry)
    (hsel : f.selector = create_search_provider_factory.selector)
    (hmiss : f.cache.lookup (cache_key c) = none) :
    f.create_provider c ctr =
      (match defaultConstruct c with
       | .error e => (.error e, f, ctr)
       | .ok q => (.ok (q.withObjId ctr),
           { f with cache := dictSet f.cache (cache_key c) (q.withObjId ctr) },
           ctr + 1)) := by
  simp only [SearchProviderFactoryImpl.create_provider, hmiss]
  rw [hsel, hreg, default_create_eq]
  cases defaultConstruct c <;> rfl

/-! ## Selector lemmas -/

/-- The selection loop returns the label of the first matching pattern. -/
theorem selectLoop_eq_find (ms : List (String × String)) (url d : String) :
    selectLoop ms url d =
      (match ms.find? (fun pt => strIn pt.1 url) with
       | some pt => pt.2
       | none => d) := by
  induction ms with
  | nil => rfl
  | cons hd tl ih =>
    cases hd with
    | mk p t =>
      by_cases hp : strIn p url = true
      · rw [List.find?_cons_of_pos _ (by simpa using hp)]
        simp [selectLoop, hp]
      · have hp' : strIn p url = false := by simpa using hp
        rw [List.find?_cons_of_neg _ (by simpa using hp')]
        simp [selectLoop, hp', ih]

/-- With no match before it, the first matching pattern's label wins. -/
theorem selectLoop_append (ms1 : List (String × String)) (p1 t1 : String)
    (ms2 : List (String × String)) (d url : String)
    (h1 : ∀ q ∈ ms1, strIn q.1 url = false) (h2 : strIn p1 url = true) :
    selectLoop (ms1 ++ (p1, t1) :: ms2) url d = t1 := by
  induction ms1 with
  | nil => simp [selectLoop, h2]
  | cons hd tl ih =>
    have hhd : strIn hd.1 url = false := h1 hd (by simp)
    cases hd with
    | mk p t =>
      simp only [List.cons_append, selectLoop]
      simp only at hhd
      simp only [hhd, Bool.false_eq_true, if_false]
      exact ih (fun q hq => h1 q (by simp [hq]))

/-- With no match at all, the loop falls through to the default. -/
theorem selectLoop_no_match (ms : List (String × String)) (d url : String)
    (h : ∀ q ∈ ms, strIn q.1 url = false) : selectLoop ms url d = d := by
  induction ms with
  | nil => rfl
  | cons hd tl ih =>
    have hhd : strIn hd.1 url = false := h hd (by simp)
    cases hd with
    | mk p t =>
      simp only at hhd
      simp only [selectLoop, hhd, Bool.false_eq_true, if_false]
      exact ih (fun q hq => h q (by simp [hq]))

/-! ## Claim theorems -/

/-- C2: `MappingBasedProviderSelector.select_provider_type` scans the
pattern-to-label mapping in insertion order and returns the label of the
first pattern occurring as a substring of `config.get("backend_url", "")`;
with no match it returns the default label; when a URL matches two
registered patterns the earlier one's label wins (any matching pattern
placed after a prefix of non-matching patterns is the one selected,
whatever comes later in the mapping). -/
theorem C2_selector_first_match :
    (∀ (s : MappingBasedProviderSelector) (c : Config),
      s.select_provider_type c =
        (match s.mappings.find?
            (fun pt => strIn pt.1 (Config.getD c "backend_url" "")) with
         | some pt => pt.2
         | none => s.default_provider)) ∧
    (∀ (ms1 : List (String × String)) (p1 t1 : String)
       (ms2 : List (String × String)) (d : String) (c : Config),
      (∀ q ∈ ms1, strIn q.1 (Config.getD c "backend_url" "") = false) →
      strIn p1 (Config.getD c "backend_url" "") = true →
      MappingBasedProviderSelector.select_provider_type
        ⟨ms1 ++ (p1, t1) :: ms2, d⟩ c = t1) ∧
    (∀ (ms : List (String × String)) (d : String) (c : Config),
      (∀ q ∈ ms, strIn q.1 (Config.getD c "backend_url" "") = false) →
      MappingBasedProviderSelector.select_provider_type ⟨ms, d⟩ c = d) := by
  refine ⟨?_, ?_, ?_⟩
  · intro s c
    exact selectLoop_eq_find s.mappings _ s.default_provider
  · intro ms1 p1 t1 ms2 d c h1 h2
    exact selectLoop_append ms1 p1 t1 ms2 d _ h1 h2
  · intro ms d c h
    exact selectLoop_no_match ms d _ h

/-- Witness for C2 on the default factory's URL mappings: the URL
`https://api.openai.com/v1` fails the Gemini pattern, matches the second
registered pattern and selects `"openai"`; an unmatched URL falls through
to the default label `"default"`. -/
theorem C2_selector_first_match_witness :
    (∀ q ∈ [("generativelanguage.googleapis.com", "google")],
      strIn q.1 (Config.getD [("backend_url", "https://api.openai.com/v1")]
        "backend_url" "") = false) ∧
    strIn "api.openai.com" (Config.getD [("backend_url", "https://api.openai.com/v1")]
      "backend_url" "") = true ∧
    MappingBasedProviderSelector.select_provider_type
      ⟨[("generativelanguage.googleapis.com", "google")] ++
        ("api.openai.com", "openai") :: [], "default"⟩
      [("backend_url", "https://api.openai.com/v1")] = "openai" ∧
    (∀ q ∈ url_mappings,
      strIn q.1 (Config.getD [("backend_url", "https://some.other.vendor/v1")]
        "backend_url" "") = false) ∧
    MappingBasedProviderSelector.select_provider_type
      ⟨url_mappings, "default"⟩
      [("backend_url", "https://some.other.vendor/v1")] = "default" :=
  ⟨by decide, by decide,
   C2_selector_first_match.2.1
     [("generativelanguage.googleapis.com", "google")] "api.openai.com" "openai"
     [] "default" [("backend_url", "https://api.openai.com/v1")]
     (by decide) (by decide),
   by decide,
   C2_selector_first_match.2.2 url_mappings "default"
     [("backend_url", "https://some.other.vendor/v1")] (by decide)⟩

/-- C3: `SearchProviderRegistry.create` raises
`ValueError("Unknown provider type: ...")` exactly when the label has no
registered creator, and in that case performs no construction: the
allocation counter comes back unchanged and no creator function is ever
invoked. When the label is registered, the call is precisely the
registered creator applied to the configuration (so the registry itself
contributes no further error and no further allocation). -/
theorem C3_registry_create :
    (∀ (P : Type) (r : SearchProviderRegistry P) (l : String) (c : Config)
       (ctr : Nat),
      r.providers.lookup l = none →
      r.create l c ctr =
        (.error (.valueError ("Unknown provider type: " ++ l)), ctr)) ∧
    (∀ (P : Type) (r : SearchProviderRegistry P) (l : String)
       (creator : Creator P) (c : Config) (ctr : Nat),
      r.providers.lookup l = some creator →
      r.create l c ctr = creator c ctr) := by
  constructor
  · intro P r l c ctr h
    unfold SearchProviderRegistry.create
    rw [h]
  · intro P r l creator c ctr h
    unfold SearchProviderRegistry.create
    rw [h]

/-- Witness for C3 on the default registry: the label `"anthropic"` is
unregistered and errors with the counter unchanged; the label `"google"`
is registered and the call equals the google creator's own result. -/
theorem C3_registry_create_witness :
    create_search_provider_factory.registry.providers.lookup "anthropic" = none ∧
    create_search_provider_factory.registry.create "anthropic"
      [("backend_url", "u")] 5 =
      (.error (.valueError ("Unknown provider type: " ++ "anthropic")), 5) ∧
    create_search_provider_factory.registry.providers.lookup "google" =
      some create_google_provider ∧
    create_search_provider_factory.registry.create "google"
      [("quick_think_llm", "gemini-pro")] 0 =
      create_google_provider [("quick_think_llm", "gemini-pro")] 0 :=
  ⟨rfl,
   C3_registry_create.1 SearchProvider create_search_provider_factory.registry
     "anthropic" [("backend_url", "u")] 5 rfl,
   rfl,
   C3_registry_create.2 SearchProvider create_search_provider_factory.registry
     "google" create_google_provider [("quick_think_llm", "gemini-pro")] 0 rfl⟩

/-- C8: re-registering a label silently overwrites the earlier creator
(last write wins) and raises nothing — `register` is a total operation
returning the updated registry; a subsequent `create` with that label
invokes the most recently registered creator. -/
theorem C8_register_overwrite :
    ∀ (P : Type) (r : SearchProviderRegistry P) (l : String)
      (f g : Creator P) (c : Config) (ctr : Nat),
      ((r.register l f).register l g).providers.lookup l = some g ∧
      ((r.register l f).register l g).create l c ctr = g c ctr := by
  intro P r l f g c ctr
  have hl : ((r.register l f).register l g).providers.lookup l = some g :=
    lookup_dictSet _ _ _
  refine ⟨hl, ?_⟩
  unfold SearchProviderRegistry.create
  rw [hl]

/-- C10: `clear_cache` mutates only the cache: the registry and the
selector are untouched, `get_available_provider_types` answers the same
list, and selection computes identically on any configuration. -/
theorem C10_clear_cache_frame :
    ∀ (P : Type) (f : SearchProviderFactoryImpl P),
      f.clear_cache.registry = f.registry ∧
      f.clear_cache.selector = f.selector ∧
      f.clear_cache.get_available_provider_types =
        f.get_available_provider_types ∧
      (∀ c : Config, f.clear_cache.selector c = f.selector c) := by
  intro P f
  exact ⟨rfl, rfl, rfl, fun c => rfl⟩

/-- C4 counterexample: the empty configuration (no `backend_url` key)
makes `EmbeddingProviderFactory.create_provider` raise
`KeyError("backend_url")` instead of returning an instance, because the
code reads `config["backend_url"]`, not `config.get(...)`. -/
theorem C4_counterexample :
    EmbeddingProviderFactory.create_provider [] =
      .error (.keyError "backend_url") := rfl

/-- C4 (amended): whenever the configuration carries a `backend_url` key,
`EmbeddingProviderFactory.create_provider` returns an instance — the
substring dispatch is total and has no error path of its own; with the
key missing it raises `KeyError("backend_url")`. The search-provider
selector, in contrast, reads `config.get("backend_url", "")`, so a
missing key silently resolves through the pattern scan on `""` (hence to
the default label, no pattern being a substring of `""` unless empty). -/
theorem C4_dispatch_total :
    (∀ (c : Config) (u : String), Config.get? c "backend_url" = some u →
      EmbeddingProviderFactory.create_provider c = .ok (embeddingDispatch u)) ∧
    (∀ c : Config, Config.get? c "backend_url" = none →
      EmbeddingProviderFactory.create_provider c =
        .error (.keyError "backend_url")) ∧
    (∀ (s : MappingBasedProviderSelector) (c : Config),
      Config.get? c "backend_url" = none →
      s.select_provider_type c = selectLoop s.mappings "" s.default_provider) := by
  refine ⟨?_, ?_, ?_⟩
  · intro c u h
    unfold EmbeddingProviderFactory.create_provider
    rw [h]
  · intro c h
    unfold EmbeddingProviderFactory.create_provider
    rw [h]
  · intro s c h
    unfold MappingBasedProviderSelector.select_provider_type Config.getD
    rw [h]

/-- Witness for C4 (amended): a configuration with `backend_url` present
yields an instance, the empty configuration yields the `KeyError`, and
the default selector run on the empty configuration scans the patterns
against `""`. -/
theorem C4_dispatch_total_witness :
    Config.get? [("backend_url", "http://x")] "backend_url" = some "http://x" ∧
    EmbeddingProviderFactory.create_provider [("backend_url", "http://x")] =
      .ok (embeddingDispatch "http://x") ∧
    Config.get? ([] : Config) "backend_url" = none ∧
    EmbeddingProviderFactory.create_provider [] =
      .error (.keyError "backend_url") ∧
    MappingBasedProviderSelector.select_provider_type
      ⟨url_mappings, "openai"⟩ [] = selectLoop url_mappings "" "openai" :=
  ⟨rfl,
   C4_dispatch_total.1 [("backend_url", "http://x")] "http://x" rfl,
   rfl,
   C4_dispatch_total.2.1 [] rfl,
   C4_dispatch_total.2.2 ⟨url_mappings, "openai"⟩ [] rfl⟩

/-- C5: the cache key is the MD5 hex digest of the sorted-key JSON
serialization of exactly the two-field dict mapping `"backend_url"` to
`config.get("backend_url", "")` and `"model"` to
`config.get("quick_think_llm", "")` (sorting puts `"backend_url"` before
`"model"`), and any two configurations agreeing on those two fields get
equal keys regardless of every other field. -/
theorem C5_cache_key_canonical :
    (∀ c : Config,
      cache_key c =
        md5hex ("\x7b\"backend_url\": " ++
          jsonStr (Config.getD c "backend_url" "") ++ ", \"model\": " ++
          jsonStr (Config.getD c "quick_think_llm" "") ++ "\x7d")) ∧
    (∀ c1 c2 : Config,
      Config.getD c1 "backend_url" "" = Config.getD c2 "backend_url" "" →
      Config.getD c1 "quick_think_llm" "" = Config.getD c2 "quick_think_llm" "" →
      cache_key c1 = cache_key c2) := by
  constructor
  · intro c
    unfold cache_key
    rw [jsonDumpsSorted_pair]
  · intro c1 c2 hb hm
    exact cache_key_congr c1 c2 hb hm

/-- Witness for C5: two configurations sharing `backend_url` and
`quick_think_llm` but differing in an unrelated field (`deep_think_llm`)
hash to the same cache key, and the key of the spec's concrete scenario
is reproduced. -/
theorem C5_cache_key_canonical_witness :
    Config.getD [("backend_url", "https://api.openai.com/v1"),
        ("quick_think_llm", "gpt-4o-mini"), ("deep_think_llm", "o1")]
        "backend_url" "" =
      Config.getD [("backend_url", "https://api.openai.com/v1"),
        ("quick_think_llm", "gpt-4o-mini"), ("max_debate_rounds", "3")]
        "backend_url" "" ∧
    Config.getD [("backend_url", "https://api.openai.com/v1"),
        ("quick_think_llm", "gpt-4o-mini"), ("deep_think_llm", "o1")]
        "quick_think_llm" "" =
      Config.getD [("backend_url", "https://api.openai.com/v1"),
        ("quick_think_llm", "gpt-4o-mini"), ("max_debate_rounds", "3")]
        "quick_think_llm" "" ∧
    cache_key [("backend_url", "https://api.openai.com/v1"),
        ("quick_think_llm", "gpt-4o-mini"), ("deep_think_llm", "o1")] =
      cache_key [("backend_url", "https://api.openai.com/v1"),
        ("quick_think_llm", "gpt-4o-mini"), ("max_debate_rounds", "3")] ∧
    cache_key [("backend_url", "https://generativelanguage.googleapis.com/v1"),
        ("quick_think_llm", "gemini-pro")] =
      md5hex ("\x7b\"backend_url\": " ++
        jsonStr "https://generativelanguage.googleapis.com/v1" ++
        ", \"model\": " ++ jsonStr "gemini-pro" ++ "\x7d") :=
  ⟨rfl, rfl,
   C5_cache_key_canonical.2
     [("backend_url", "https://api.openai.com/v1"),
      ("quick_think_llm", "gpt-4o-mini"), ("deep_think_llm", "o1")]
     [("backend_url", "https://api.openai.com/v1"),
      ("quick_think_llm", "gpt-4o-mini"), ("max_debate_rounds", "3")]
     rfl rfl,
   C5_cache_key_canonical.1
     [("backend_url", "https://generativelanguage.googleapis.com/v1"),
      ("quick_think_llm", "gemini-pro")]⟩

/-- C6: for every configuration carrying a `backend_url`,
`EmbeddingProviderFactory.create_provider` dispatches over the fixed
ordered substring tests: the Gemini pattern
`generativelanguage.googleapis.com` wins first, then the local-loopback
pattern `localhost:11434` selects Ollama, and everything else gets the
OpenAI-compatible default. -/
theorem C6_embedding_dispatch_order :
    ∀ (c : Config) (u : String), Config.get? c "backend_url" = some u →
      (strIn "generativelanguage.googleapis.com" u = true →
        EmbeddingProviderFactory.create_provider c = .ok (.gemini u)) ∧
      (strIn "generativelanguage.googleapis.com" u = false →
        strIn "localhost:11434" u = true →
        EmbeddingProviderFactory.create_provider c = .ok (.ollama u)) ∧
      (strIn "generativelanguage.googleapis.com" u = false →
        strIn "localhost:11434" u = false →
        EmbeddingProviderFactory.create_provider c = .ok (.openai u)) := by
  intro c u h
  have hcp : EmbeddingProviderFactory.create_provider c =
      .ok (embeddingDispatch u) := by
    unfold EmbeddingProviderFactory.create_provider
    rw [h]
  refine ⟨?_, ?_, ?_⟩
  · intro hg
    rw [hcp]
    unfold embeddingDispatch
    rw [hg]
    rfl
  · intro hg hl
    rw [hcp]
    unfold embeddingDispatch
    rw [hg, hl]
    rfl
  · intro hg hl
    rw [hcp]
    unfold embeddingDispatch
    rw [hg, hl]
    rfl

/-- Witness for C6, the spec's concrete scenarios:
`http://localhost:11434` yields the Ollama provider,
`https://some.other.vendor/v1` falls through to the OpenAI-compatible
default, and a Gemini URL yields the Gemini provider. -/
theorem C6_embedding_dispatch_order_witness :
    Config.get? [("backend_url", "http://localhost:11434")] "backend_url" =
      some "http://localhost:11434" ∧
    EmbeddingProviderFactory.create_provider
      [("backend_url", "http://localhost:11434")] =
      .ok (.ollama "http://localhost:11434") ∧
    EmbeddingProviderFactory.create_provider
      [("backend_url", "https://some.other.vendor/v1")] =
      .ok (.openai "https://some.other.vendor/v1") ∧
    EmbeddingProviderFactory.create_provider
      [("backend_url", "https://generativelanguage.googleapis.com/v1")] =
      .ok (.gemini "https://generativelanguage.googleapis.com/v1") :=
  ⟨rfl,
   (C6_embedding_dispatch_order [("backend_url", "http://localhost:11434")]
     "http://localhost:11434" rfl).2.1 (by decide) (by decide),
   (C6_embedding_dispatch_order [("backend_url", "https://some.other.vendor/v1")]
     "https://some.other.vendor/v1" rfl).2.2 (by decide) (by decide),
   (C6_embedding_dispatch_order
     [("backend_url", "https://generativelanguage.googleapis.com/v1")]
     "https://generativelanguage.googleapis.com/v1" rfl).1 (by decide)⟩

/-- C1: caching by the relevant configuration subset. First conjunct: a
second `create_provider` call whose configuration agrees with the first
on `config.get("backend_url", "")` and `config.get("quick_think_llm", "")`
(every other field arbitrary) returns the very instance stored by the
first call and leaves the factory and allocation counter untouched —
instance identity, since no new allocation happens. Second conjunct:
with the same `backend_url` but a different `quick_think_llm` the two
calls populate two distinct cache entries, one per key; the hypothesis
`cache_key c1 ≠ cache_key c2` records that the two serialized field sets
do not collide under MD5 (the witness discharges the inequality by
computing both digests). Third conjunct: that hypothesis is no accident —
the serialized payloads hashed into the two keys always differ when
`quick_think_llm` differs, so distinct entries are guaranteed up to MD5
collisions alone. -/
theorem C1_cache_instance_identity :
    (∀ (P : Type) (f : SearchProviderFactoryImpl P) (c1 c2 : Config)
       (ctr : Nat) (p : P) (f1 : SearchProviderFactoryImpl P) (ctr1 : Nat),
      Config.getD c1 "backend_url" "" = Config.getD c2 "backend_url" "" →
      Config.getD c1 "quick_think_llm" "" = Config.getD c2 "quick_think_llm" "" →
      f.create_provider c1 ctr = (.ok p, f1, ctr1) →
      f1.create_provider c2 ctr1 = (.ok p, f1, ctr1)) ∧
    (∀ (P : Type) (f : SearchProviderFactoryImpl P) (c1 c2 : Config)
       (ctr : Nat) (p1 : P) (f1 : SearchProviderFactoryImpl P) (ctr1 : Nat)
       (p2 : P) (f2 : SearchProviderFactoryImpl P) (ctr2 : Nat),
      Config.getD c1 "backend_url" "" = Config.getD c2 "backend_url" "" →
      Config.getD c1 "quick_think_llm" "" ≠ Config.getD c2 "quick_think_llm" "" →
      cache_key c1 ≠ cache_key c2 →
      f.create_provider c1 ctr = (.ok p1, f1, ctr1) →
      f1.create_provider c2 ctr1 = (.ok p2, f2, ctr2) →
      f2.cache.lookup (cache_key c1) = some p1 ∧
        f2.cache.lookup (cache_key c2) = some p2) ∧
    (∀ c1 c2 : Config,
      Config.getD c1 "backend_url" "" = Config.getD c2 "backend_url" "" →
      Config.getD c1 "quick_think_llm" "" ≠ Config.getD c2 "quick_think_llm" "" →
      jsonDumpsSorted
        [("backend_url", Config.getD c1 "backend_url" ""),
         ("model", Config.getD c1 "quick_think_llm" "")] ≠
      jsonDumpsSorted
        [("backend_url", Config.getD c2 "backend_url" ""),
         ("model", Config.getD c2 "quick_think_llm" "")]) := by
  refine ⟨?_, ?_, ?_⟩
  · intro P f c1 c2 ctr p f1 ctr1 hb hm h1
    have hk : cache_key c2 = cache_key c1 := (cache_key_congr c1 c2 hb hm).symm
    have hl := (create_provider_ok_state f c1 ctr p f1 ctr1 h1).1
    have hl2 : f1.cache.lookup (cache_key c2) = some p := by rw [hk]; exact hl
    exact create_provider_hit f1 c2 ctr1 p hl2
  · intro P f c1 c2 ctr p1 f1 ctr1 p2 f2 ctr2 hb hm hkey h1 h2
    have hl1 := (create_provider_ok_state f c1 ctr p1 f1 ctr1 h1).1
    have hl2 := (create_provider_ok_state f1 c2 ctr1 p2 f2 ctr2 h2).1
    have hne : (cache_key c1 == cache_key c2) = false := by simpa using hkey
    have hpres := create_provider_preserve f1 c2 ctr1 (.ok p2) f2 ctr2 h2
      (cache_key c1) hne
    exact ⟨by rw [hpres]; exact hl1, hl2⟩
  · intro c1 c2 hb hm
    rw [hb]
    exact cache_payload_ne _ _ _ hm

/-- Witness for C1 on the default factory: a first call on `cfgGeminiPro`
constructs instance 0; a repeat call whose configuration agrees on the
two relevant fields but adds an unrelated `deep_think_llm` field returns
the identical instance with nothing new allocated; a call with the same
URL but `quick_think_llm = "gemini-flash"` has a different cache key
(both MD5 digests computed) and yields a second, distinct cache entry
holding the freshly constructed instance 1. -/
theorem C1_cache_instance_identity_witness :
    create_search_provider_factory.create_provider cfgGeminiPro 0 =
      (.ok (.google "gemini-pro" 0), facAfterA, 1) ∧
    facAfterA.create_provider cfgGeminiProExtra 1 =
      (.ok (.google "gemini-pro" 0), facAfterA, 1) ∧
    Config.getD cfgGeminiPro "quick_think_llm" "" ≠
      Config.getD cfgGeminiFlash "quick_think_llm" "" ∧
    cache_key cfgGeminiPro ≠ cache_key cfgGeminiFlash ∧
    facAfterA.create_provider cfgGeminiFlash 1 =
      (.ok (.google "gemini-flash" 1), facAfterAB, 2) ∧
    facAfterAB.cache.lookup (cache_key cfgGeminiPro) =
      some (.google "gemini-pro" 0) ∧
    facAfterAB.cache.lookup (cache_key cfgGeminiFlash) =
      some (.google "gemini-flash" 1) ∧
    jsonDumpsSorted
      [("backend_url", Config.getD cfgGeminiPro "backend_url" ""),
       ("model", Config.getD cfgGeminiPro "quick_think_llm" "")] ≠
    jsonDumpsSorted
      [("backend_url", Config.getD cfgGeminiFlash "backend_url" ""),
       ("model", Config.getD cfgGeminiFlash "quick_think_llm" "")] :=
  ⟨rfl,
   C1_cache_instance_identity.1 SearchProvider create_search_provider_factory
     cfgGeminiPro cfgGeminiProExtra 0 (.google "gemini-pro" 0) facAfterA 1
     rfl rfl rfl,
   by decide,
   by decide,
   rfl,
   (C1_cache_instance_identity.2.1 SearchProvider create_search_provider_factory
     cfgGeminiPro cfgGeminiFlash 0 (.google "gemini-pro" 0) facAfterA 1
     (.google "gemini-flash" 1) facAfterAB 2
     rfl (by decide) (by decide) rfl rfl).1,
   (C1_cache_instance_identity.2.1 SearchProvider create_search_provider_factory
     cfgGeminiPro cfgGeminiFlash 0 (.google "gemini-pro" 0) facAfterA 1
     (.google "gemini-flash" 1) facAfterAB 2
     rfl (by decide) (by decide) rfl rfl).2,
   C1_cache_instance_identity.2.2 cfgGeminiPro cfgGeminiFlash rfl (by decide)⟩

/-- C7: `clear_cache` empties the whole cache unconditionally (first
conjunct, for every factory), and on the default factory a successful
call, a clear, and a repeat call with the same configuration reconstructs
the provider: the repeat call returns the same provider value re-stamped
with the next allocation id, an instance distinct from the pre-clear one
(different `objId`, hence a different Python object). -/
theorem C7_clear_cache_forces_fresh :
    (∀ (P : Type) (f : SearchProviderFactoryImpl P), f.clear_cache.cache = []) ∧
    (∀ (c : Config) (p1 : SearchProvider)
       (f1 : SearchProviderFactoryImpl SearchProvider) (ctr1 : Nat),
      create_search_provider_factory.create_provider c 0 = (.ok p1, f1, ctr1) →
      (f1.clear_cache.create_provider c ctr1).1 = .ok (p1.withObjId ctr1) ∧
        p1.withObjId ctr1 ≠ p1) := by
  constructor
  · intro P f
    rfl
  · intro c p1 f1 ctr1 h1
    have hmiss0 : create_search_provider_factory.cache.lookup (cache_key c) =
        none := rfl
    rw [create_provider_miss_default create_search_provider_factory c 0 rfl rfl
      hmiss0] at h1
    cases hdc : defaultConstruct c with
    | error e =>
      rw [hdc] at h1
      simp at h1
    | ok q =>
      rw [hdc] at h1
      simp only [Prod.mk.injEq, Except.ok.injEq] at h1
      obtain ⟨hp, hf, hctr⟩ := h1
      subst hctr
      subst hp
      subst hf
      constructor
      · show (create_search_provider_factory.create_provider c (0 + 1)).1 =
          .ok ((q.withObjId 0).withObjId (0 + 1))
        rw [create_provider_miss_default create_search_provider_factory c (0 + 1)
          rfl rfl hmiss0, hdc]
        simp [withObjId_withObjId]
      · rw [withObjId_withObjId]
        intro heq
        have hid := congrArg SearchProvider.objId heq
        rw [objId_withObjId, objId_withObjId] at hid
        simp at hid

/-- Witness for C7: on `cfgGeminiPro` the pre-clear instance is
`google "gemini-pro" 0`; after `clear_cache` the repeat call returns
`google "gemini-pro" 1`, a distinct instance. -/
theorem C7_clear_cache_forces_fresh_witness :
    create_search_provider_factory.create_provider cfgGeminiPro 0 =
      (.ok (.google "gemini-pro" 0), facAfterA, 1) ∧
    (facAfterA.clear_cache.create_provider cfgGeminiPro 1).1 =
      .ok ((SearchProvider.google "gemini-pro" 0).withObjId 1) ∧
    (SearchProvider.google "gemini-pro" 0).withObjId 1 ≠
      SearchProvider.google "gemini-pro" 0 :=
  ⟨rfl,
   (C7_clear_cache_forces_fresh.2 cfgGeminiPro (.google "gemini-pro" 0)
     facAfterA 1 rfl).1,
   (C7_clear_cache_forces_fresh.2 cfgGeminiPro (.google "gemini-pro" 0)
     facAfterA 1 rfl).2⟩

/-- C9: when the construction step of `create_provider` raises — the
selector's label being unregistered, or the creator itself failing — the
error propagates and the factory comes back exactly as it was: in
particular the cache holds no entry under the computed cache key (it held
none before, or the call would have been a hit and could not fail). -/
theorem C9_error_leaves_factory_unchanged :
    ∀ (P : Type) (f : SearchProviderFactoryImpl P) (c : Config) (ctr : Nat)
      (e : PyErr) (f1 : SearchProviderFactoryImpl P) (ctr1 : Nat),
      f.create_provider c ctr = (.error e, f1, ctr1) →
      f1 = f ∧ f1.cache.lookup (cache_key c) = none := by
  intro P f c ctr e f1 ctr1 h
  obtain ⟨hf, hnone⟩ := create_provider_error_state f c ctr e f1 ctr1 h
  subst hf
  exact ⟨rfl, hnone⟩

/-- Witness for C9: on a Gemini URL with no `quick_think_llm`, the google
creator raises `KeyError` and the default factory is returned untouched,
with no cache entry stored under the computed key. -/
theorem C9_error_leaves_factory_unchanged_witness :
    create_search_provider_factory.create_provider cfgGeminiNoLLM 0 =
      (.error (.keyError "quick_think_llm"), create_search_provider_factory, 0) ∧
    create_search_provider_factory = create_search_provider_factory ∧
    create_search_provider_factory.cache.lookup (cache_key cfgGeminiNoLLM) =
      none :=
  ⟨rfl,
   C9_error_leaves_factory_unchanged SearchProvider
     create_search_provider_factory cfgGeminiNoLLM 0
     (.keyError "quick_think_llm") create_search_provider_factory 0 rfl⟩

end TradingAgents
